import Mathlib

/-!
Shallow embedding of the `app-front` React client: the admin panel
(`AdminPanel`) and the public view (`DownloadPage`).  Each event handler of
the source is translated into a pure Lean function from the component state
and the network outcome (a `Bool` per request: `true` = the request
succeeds, `false` = it rejects) to the effects it performs (HTTP requests
issued, modal alerts shown, console errors logged, browser-store writes,
uncaught rejections) and the resulting component state.
-/

namespace AppFront

/-- A stage record: `Stage{id, name, status, order}`. -/
structure Stage where
  id : Nat
  name : String
  status : String
  order : Nat
deriving DecidableEq, Repr

/-- A project record as rendered by the admin panel. -/
structure Project where
  projectId : String
  projectName : String
deriving DecidableEq, Repr

/-- A download record: `Download{id, name, description, url}`. -/
structure Download where
  id : Nat
  name : String
  description : String
  url : String
deriving DecidableEq, Repr

/-- HTTP method of a request made through axios. -/
inductive Method where
  | GET
  | POST
  | PUT
  | DELETE
deriving DecidableEq, Repr

/-- JSON body of a request, by shape, as built at each axios call site. -/
inductive Body where
  | empty
  | projectBody (projectName : String) (stages : List Stage)
  | stageNameBody (name : String)
  | downloadBody (name description url : String)
  | statusBody (status : String)
  | stagesBody (stages : List Stage)
deriving DecidableEq, Repr

/-- An HTTP request: method, full URL, body. -/
structure Request where
  method : Method
  url : String
  body : Body
deriving DecidableEq, Repr

/-- A modal alert dialog (SweetAlert2 `fire`): icon, title, text. -/
structure Alert where
  icon : String
  title : String
  text : String
deriving DecidableEq, Repr

/-- Observable effects of one handler invocation. -/
structure Effects where
  requests : List Request := []
  alerts : List Alert := []
  consoleErrors : List String := []
  uncaught : Bool := false
  localStorageWrites : List (String × String) := []
  historyReplaces : List String := []
deriving DecidableEq, Repr

def noEffects : Effects := {}

/-- The hard-coded API base URL. -/
def baseURL : String := "https://app-back-99ll.onrender.com"

/-- The `AdminPanel` component state (its `useState` hooks). -/
structure AdminState where
  projects : List Project
  stages : List Stage
  downloads : List Download
  projectName : String
  stageName : String
  downloadName : String
  downloadDescription : String
  downloadUrl : String
  selectedProject : Option String
deriving DecidableEq, Repr

/-- The initial `AdminPanel` state: every `useState` initializer. -/
def initialAdminState : AdminState where
  projects := []
  stages := []
  downloads := []
  projectName := ""
  stageName := ""
  downloadName := ""
  downloadDescription := ""
  downloadUrl := ""
  selectedProject := none

/-- `fetchProjects`: GET `/projects`; on success store the response, on
failure log to the console (no alert). `server` is the response data. -/
def fetchProjects (s : AdminState) (ok : Bool) (server : List Project) :
    Effects × AdminState :=
  ({ requests := [⟨.GET, baseURL ++ "/projects", .empty⟩],
     consoleErrors := if ok then [] else ["Error fetching projects:"] },
   if ok then { s with projects := server } else s)

/-- `fetchDownloads`: GET `/downloads`; on success store the response, on
failure log to the console (no alert). -/
def fetchDownloads (s : AdminState) (ok : Bool) (server : List Download) :
    Effects × AdminState :=
  ({ requests := [⟨.GET, baseURL ++ "/downloads", .empty⟩],
     consoleErrors := if ok then [] else ["Error fetching downloads:"] },
   if ok then { s with downloads := server } else s)

/-- `fetchStages`: when `selectedProject` is truthy, GET `/projects/:id` and
store `response.data.stages || []`; otherwise clear the stages list.
`server` is `response.data.stages` (`none` models an absent field). -/
def fetchStages (s : AdminState) (ok : Bool) (server : Option (List Stage)) :
    Effects × AdminState :=
  match s.selectedProject with
  | some pid =>
      if pid = "" then
        (noEffects, { s with stages := [] })
      else
        ({ requests := [⟨.GET, baseURL ++ "/projects/" ++ pid, .empty⟩],
           consoleErrors := if ok then [] else ["Error fetching stages:"] },
         if ok then { s with stages := server.getD [] } else s)
  | none => (noEffects, { s with stages := [] })

/-- `handleAddProject`: reject empty names and (case-insensitively)
duplicate names with an error alert; otherwise POST `/projects` with
`{ projectName, stages }`, then re-fetch the project list, clear the
name field and the stages, and show a success alert.  A failed POST is
caught and surfaced as an error alert. -/
def handleAddProject (s : AdminState) (postOk fetchOk : Bool)
    (server : List Project) : Effects × AdminState :=
  if s.projectName.length > 0 then
    match s.projects.find?
        (fun p => p.projectName.toLower == s.projectName.toLower) with
    | some _ =>
        ({ alerts := [⟨"error", "Error",
             "Project name already exists. Please choose a different name."⟩] },
         s)
    | none =>
        let postReq : Request :=
          ⟨.POST, baseURL ++ "/projects", .projectBody s.projectName s.stages⟩
        if postOk then
          let r := fetchProjects s fetchOk server
          ({ requests := postReq :: r.1.requests,
             alerts := r.1.alerts ++
               [⟨"success", "Success", "Project added successfully!"⟩],
             consoleErrors := r.1.consoleErrors },
           { r.2 with projectName := "", stages := [] })
        else
          ({ requests := [postReq],
             alerts := [⟨"error", "Error",
               "Error adding project. Please try again."⟩],
             consoleErrors := ["Error adding project:"] },
           s)
  else
    ({ alerts := [⟨"error", "Error", "Please provide a project name."⟩] }, s)

/-- `handleAddStage`: when `selectedProject` and `stageName` are truthy,
POST `/projects/stage/:projectId` with `{ name: stageName }`, re-fetch the
stages, clear the field and alert success; a failed POST alerts an error. -/
def handleAddStage (s : AdminState) (postOk fetchOk : Bool)
    (server : Option (List Stage)) : Effects × AdminState :=
  match s.selectedProject with
  | some pid =>
      if pid = "" ∨ s.stageName = "" then
        (noEffects, s)
      else
        let postReq : Request :=
          ⟨.POST, baseURL ++ "/projects/stage/" ++ pid,
            .stageNameBody s.stageName⟩
        if postOk then
          let r := fetchStages s fetchOk server
          ({ requests := postReq :: r.1.requests,
             alerts := r.1.alerts ++
               [⟨"success", "Success", "Stage added successfully!"⟩],
             consoleErrors := r.1.consoleErrors },
           { r.2 with stageName := "" })
        else
          ({ requests := [postReq],
             alerts := [⟨"error", "Error",
               "Error adding stage. Please try again."⟩],
             consoleErrors := ["Error adding stage:"] },
           s)
  | none => (noEffects, s)

/-- `handleAddDownload`: when the three fields are truthy, POST
`/downloads`, re-fetch the downloads, clear the fields and alert success;
a failed POST alerts an error. -/
def handleAddDownload (s : AdminState) (postOk fetchOk : Bool)
    (server : List Download) : Effects × AdminState :=
  if s.downloadName = "" ∨ s.downloadDescription = "" ∨ s.downloadUrl = "" then
    (noEffects, s)
  else
    let postReq : Request :=
      ⟨.POST, baseURL ++ "/downloads",
        .downloadBody s.downloadName s.downloadDescription s.downloadUrl⟩
    if postOk then
      let r := fetchDownloads s fetchOk server
      ({ requests := postReq :: r.1.requests,
         alerts := r.1.alerts ++
           [⟨"success", "Success", "Download added successfully!"⟩],
         consoleErrors := r.1.consoleErrors },
       { r.2 with downloadName := "", downloadDescription := "",
                  downloadUrl := "" })
    else
      ({ requests := [postReq],
         alerts := [⟨"error", "Error",
           "Error adding download. Please try again."⟩],
         consoleErrors := ["Error adding download:"] },
       s)

/-- The status successor computed inside `handleChangeStageStatus`:
`"ongoing" ↦ "completed"`, `"completed" ↦ "incomplete"`, anything else
(including `"incomplete"`) `↦ "ongoing"`. -/
def nextStatus (currentStatus : String) : String :=
  if currentStatus = "ongoing" then "completed"
  else if currentStatus = "completed" then "incomplete"
  else "ongoing"

/-- `handleChangeStageStatus`: when `selectedProject` is truthy, PUT
`/projects/stage/:projectId/:stageId` with the cycled status and re-fetch
the stages; a failed PUT is caught and only logged to the console. -/
def handleChangeStageStatus (s : AdminState) (stageId : String)
    (currentStatus : String) (putOk fetchOk : Bool)
    (server : Option (List Stage)) : Effects × AdminState :=
  match s.selectedProject with
  | some pid =>
      if pid = "" then
        (noEffects, s)
      else
        let putReq : Request :=
          ⟨.PUT, baseURL ++ "/projects/stage/" ++ pid ++ "/" ++ stageId,
            .statusBody (nextStatus currentStatus)⟩
        if putOk then
          let r := fetchStages s fetchOk server
          ({ requests := putReq :: r.1.requests,
             consoleErrors := r.1.consoleErrors },
           r.2)
        else
          ({ requests := [putReq],
             consoleErrors := ["Error changing stage status:"] },
           s)
  | none => (noEffects, s)

/-- `handleDeleteProject`: DELETE `/projects/:projectId`, re-fetch the
project list and alert success; a failed DELETE is only logged. -/
def handleDeleteProject (s : AdminState) (projectId : String)
    (delOk fetchOk : Bool) (server : List Project) : Effects × AdminState :=
  let delReq : Request :=
    ⟨.DELETE, baseURL ++ "/projects/" ++ projectId, .empty⟩
  if delOk then
    let r := fetchProjects s fetchOk server
    ({ requests := delReq :: r.1.requests,
       alerts := r.1.alerts ++
         [⟨"success", "Success", "Deleted project successfully"⟩],
       consoleErrors := r.1.consoleErrors },
     r.2)
  else
    ({ requests := [delReq],
       consoleErrors := ["Error deleting project:"] },
     s)

/-- `handleDeleteStage`: when `selectedProject` is truthy, DELETE
`/projects/stage/:projectId/:stageId`, re-fetch the stages and alert
success; a failed DELETE is only logged. -/
def handleDeleteStage (s : AdminState) (stageId : Nat)
    (delOk fetchOk : Bool) (server : Option (List Stage)) :
    Effects × AdminState :=
  match s.selectedProject with
  | some pid =>
      if pid = "" then
        (noEffects, s)
      else
        let delReq : Request :=
          ⟨.DELETE,
            baseURL ++ "/projects/stage/" ++ pid ++ "/" ++ toString stageId,
            .empty⟩
        if delOk then
          let r := fetchStages s fetchOk server
          ({ requests := delReq :: r.1.requests,
             alerts := r.1.alerts ++
               [⟨"success", "Success", "Deleted stage successfully"⟩],
             consoleErrors := r.1.consoleErrors },
           r.2)
        else
          ({ requests := [delReq],
             consoleErrors := ["Error deleting stage:"] },
           s)
  | none => (noEffects, s)

/-- `handleDeleteDownload`: DELETE `/downloads/:downloadId`, re-fetch the
downloads and alert success; a failed DELETE is only logged. -/
def handleDeleteDownload (s : AdminState) (downloadId : Nat)
    (delOk fetchOk : Bool) (server : List Download) : Effects × AdminState :=
  let delReq : Request :=
    ⟨.DELETE, baseURL ++ "/downloads/" ++ toString downloadId, .empty⟩
  if delOk then
    let r := fetchDownloads s fetchOk server
    ({ requests := delReq :: r.1.requests,
       alerts := r.1.alerts ++
         [⟨"success", "Success", "Deleted download successfully"⟩],
       consoleErrors := r.1.consoleErrors },
     r.2)
  else
    ({ requests := [delReq],
       consoleErrors := ["Error deleting download:"] },
     s)

/-- A drag location as delivered by react-beautiful-dnd. -/
structure DragLocation where
  index : Nat
deriving DecidableEq, Repr

/-- A drag result: `source` and an optional `destination`. -/
structure DragResult where
  source : DragLocation
  destination : Option DragLocation
deriving DecidableEq, Repr

/-- `makeApiCall` in `DownloadPage`: PUT
`/projects/stage/:projectId/:cardId` with `{ status }`.  It has no
try/catch, so a failed PUT is an uncaught rejection. -/
def makeApiCall (projectId : Nat) (status : String) (cardId : Nat)
    (ok : Bool) : Effects :=
  { requests := [⟨.PUT,
      baseURL ++ "/projects/stage/" ++ toString projectId ++ "/" ++
        toString cardId,
      .statusBody status⟩],
    uncaught := !ok }

/-- The `stages.map` inside `handleStatusChange`: set `status` on every
stage whose `id` equals `stageId`, keep the rest untouched. -/
def updateStagesStatus (stages : List Stage) (stageId : Nat)
    (status : String) : List Stage :=
  stages.map fun stage =>
    if stage.id = stageId then { stage with status := status } else stage

/-- `handleStatusChange` in `DownloadPage`: non-admins get an Access
Denied alert and nothing else; admins get the stages state updated via
`updateStagesStatus` and `makeApiCall` issued. -/
def handleStatusChange (isAdmin : Bool) (projectId : Nat)
    (stages : List Stage) (stageId : Nat) (status : String) (ok : Bool) :
    Effects × List Stage :=
  if !isAdmin then
    ({ alerts := [⟨"warning", "Access Denied",
        "Only admins can change the status."⟩] },
     stages)
  else
    (makeApiCall projectId status stageId ok,
     updateStagesStatus stages stageId status)

/-- `persistOrder`: PUT `/reorder/:projectId` with `{ stages }`; success
and failure each show a modal alert (failure is also logged). -/
def persistOrder (projectId : Nat) (orderedStages : List Stage)
    (ok : Bool) : Effects :=
  let req : Request :=
    ⟨.PUT, baseURL ++ "/reorder/" ++ toString projectId,
      .stagesBody orderedStages⟩
  if ok then
    { requests := [req],
      alerts := [⟨"success", "Order Updated",
        "The stages have been updated successfully!"⟩] }
  else
    { requests := [req],
      alerts := [⟨"error", "Update Failed",
        "There was an error updating the stages."⟩],
      consoleErrors := ["Error updating stages:"] }

/-- The two `splice` calls inside `onDragEnd`: remove the element at
`src` and re-insert it at `dest` (for the in-range indices a drag event
delivers; an insertion index past the end appends, as `splice` does). -/
def spliceReorder (stages : List Stage) (src dest : Nat) : List Stage :=
  match stages.get? src with
  | none => stages
  | some movedStage =>
      let removed := stages.eraseIdx src
      removed.take dest ++ movedStage :: removed.drop dest

/-- `onDragEnd` in `DownloadPage`: a drag without destination does
nothing (before any admin check); non-admins get an Access Denied alert;
admins get the reordered list persisted via `persistOrder`.  The local
stages state is never written here. -/
def onDragEnd (isAdmin : Bool) (projectId : Nat) (stages : List Stage)
    (result : DragResult) (ok : Bool) : Effects × List Stage :=
  match result.destination with
  | none => (noEffects, stages)
  | some destLoc =>
      if !isAdmin then
        ({ alerts := [⟨"warning", "Access Denied",
            "Only admins can rearrange the stages."⟩] },
         stages)
      else
        (persistOrder projectId
           (spliceReorder stages result.source.index destLoc.index) ok,
         stages)

/-- The `useEffect` run on `DownloadPage` mount: write the current URL to
`localStorage` under `"lastPage"`, then read it back and, when truthy,
replay it via `history.replaceState`. -/
def downloadPageMountEffect (href : String) : Effects :=
  { localStorageWrites := [("lastPage", href)],
    historyReplaces := if href = "" then [] else [href] }

/-- The endpoint shapes the spec lists, relative to the fixed base URL:
GET/POST `/projects`, GET/DELETE `/projects/:id`, POST
`/projects/stage/:projectId`, PUT/DELETE
`/projects/stage/:projectId/:stageId`, PUT `/reorder/:projectId`,
GET/POST `/downloads`, DELETE `/downloads/:id`.  Spec-side definition,
compared against every request the handlers issue. -/
def allowedRequest (r : Request) : Prop :=
  (r.method = .GET ∧ r.url = baseURL ++ "/projects") ∨
  (r.method = .POST ∧ r.url = baseURL ++ "/projects") ∨
  (∃ pid, (r.method = .GET ∨ r.method = .DELETE) ∧
    r.url = baseURL ++ "/projects/" ++ pid) ∨
  (∃ pid, r.method = .POST ∧
    r.url = baseURL ++ "/projects/stage/" ++ pid) ∨
  (∃ pid sid, (r.method = .PUT ∨ r.method = .DELETE) ∧
    r.url = baseURL ++ "/projects/stage/" ++ pid ++ "/" ++ sid) ∨
  (∃ pid, r.method = .PUT ∧ r.url = baseURL ++ "/reorder/" ++ pid) ∨
  (r.method = .GET ∧ r.url = baseURL ++ "/downloads") ∨
  (r.method = .POST ∧ r.url = baseURL ++ "/downloads") ∨
  (∃ did, r.method = .DELETE ∧ r.url = baseURL ++ "/downloads/" ++ did)

/-! ## Theorems -/

/-- A name that case-insensitively clashes with no fetched project makes
the duplicate lookup in `handleAddProject` come up empty. -/
theorem findDuplicate_eq_none (s : AdminState)
    (h : ∀ p ∈ s.projects, p.projectName.toLower ≠ s.projectName.toLower) :
    s.projects.find?
      (fun p => p.projectName.toLower == s.projectName.toLower) = none := by
  rw [List.find?_eq_none]
  intro p hp
  simpa using h p hp

/-- C9: the admin stage-status toggle is a fixed 3-cycle: `"ongoing"`
maps to `"completed"`, `"completed"` maps to `"incomplete"`, every other
input (including `"incomplete"`) maps to `"ongoing"`, and applying the
transition three times to any of the three valid statuses returns the
original status. -/
theorem C9_status_cycle :
    nextStatus "ongoing" = "completed" ∧
    nextStatus "completed" = "incomplete" ∧
    (∀ s : String, s ≠ "ongoing" → s ≠ "completed" → nextStatus s = "ongoing") ∧
    (∀ s : String, s = "ongoing" ∨ s = "completed" ∨ s = "incomplete" →
      nextStatus (nextStatus (nextStatus s)) = s) := by
  refine ⟨by decide, by decide, ?_, ?_⟩
  · intro s h1 h2
    simp [nextStatus, h1, h2]
  · rintro s (rfl | rfl | rfl) <;> decide

/-- Witness for C9 at concrete statuses. -/
theorem C9_status_cycle_witness :
    nextStatus "incomplete" = "ongoing" ∧
    nextStatus (nextStatus (nextStatus "completed")) = "completed" :=
  ⟨C9_status_cycle.2.2.1 "incomplete" (by decide) (by decide),
   C9_status_cycle.2.2.2 "completed" (Or.inr (Or.inl rfl))⟩

/-- C10: an admin status edit in the public view preserves length and
order of the stages list, sets exactly the `status` field of every stage
whose `id` equals the target (keeping its other fields), leaves every
other stage untouched, and leaves the list unchanged when no stage has
the given id. -/
theorem C10_admin_status_edit_frame (projectId : Nat) (stages : List Stage)
    (stageId : Nat) (status : String) (ok : Bool) :
    (handleStatusChange true projectId stages stageId status ok).2.length
        = stages.length ∧
    (∀ i : Nat, ∀ st : Stage, stages.get? i = some st →
      (st.id = stageId →
        (handleStatusChange true projectId stages stageId status ok).2.get? i
          = some { st with status := status }) ∧
      (st.id ≠ stageId →
        (handleStatusChange true projectId stages stageId status ok).2.get? i
          = some st)) ∧
    ((∀ st ∈ stages, st.id ≠ stageId) →
      (handleStatusChange true projectId stages stageId status ok).2
        = stages) := by
  have hdef : (handleStatusChange true projectId stages stageId status ok).2
      = updateStagesStatus stages stageId status := rfl
  rw [hdef]
  refine ⟨List.length_map _ _, ?_, ?_⟩
  · intro i st hst
    have h2 : stages[i]? = some st := by
      rw [← List.get?_eq_getElem?]
      exact hst
    constructor
    · intro hid
      simp [updateStagesStatus, List.get?_eq_getElem?, List.getElem?_map,
        h2, hid]
    · intro hid
      simp [updateStagesStatus, List.get?_eq_getElem?, List.getElem?_map,
        h2, hid]
  · intro hnone
    have : stages.map (fun stage =>
        if stage.id = stageId then { stage with status := status } else stage)
        = stages.map id := by
      apply List.map_congr_left
      intro st hst
      simp [hnone st hst]
    simpa [updateStagesStatus] using this

/-- Witness for C10: a concrete one-stage list with a matching id. -/
theorem C10_admin_status_edit_frame_witness :
    (handleStatusChange true 5 [⟨1, "design", "ongoing", 0⟩] 1 "completed"
        true).2.get? 0 = some ⟨1, "design", "completed", 0⟩ :=
  ((C10_admin_status_edit_frame 5 [⟨1, "design", "ongoing", 0⟩] 1 "completed"
      true).2.1 0 ⟨1, "design", "ongoing", 0⟩ rfl).1 rfl

/-- C1: adding a project whose entered name case-insensitively equals the
name of an already-fetched project is rejected: an error alert is shown,
no request at all (in particular no POST to `/projects`) is issued, and
the whole state — the projects list included — is unchanged. -/
theorem C1_duplicate_project_rejected (s : AdminState) (postOk fetchOk : Bool)
    (server : List Project)
    (hdup : ∃ p ∈ s.projects, p.projectName.toLower = s.projectName.toLower) :
    (∃ a ∈ (handleAddProject s postOk fetchOk server).1.alerts,
        a.icon = "error") ∧
    (handleAddProject s postOk fetchOk server).1.requests = [] ∧
    (handleAddProject s postOk fetchOk server).2 = s := by
  by_cases hlen : s.projectName.length > 0
  · have hfind : (s.projects.find?
        (fun p => p.projectName.toLower == s.projectName.toLower)).isSome := by
      rw [List.find?_isSome]
      obtain ⟨p, hp, he⟩ := hdup
      exact ⟨p, hp, by simp [he]⟩
    cases hmatch : s.projects.find?
        (fun p => p.projectName.toLower == s.projectName.toLower) with
    | none =>
        rw [hmatch] at hfind
        simp at hfind
    | some p =>
        refine ⟨⟨⟨"error", "Error",
          "Project name already exists. Please choose a different name."⟩,
          ?_, rfl⟩, ?_, ?_⟩ <;>
        simp [handleAddProject, hlen, hmatch]
  · refine ⟨⟨⟨"error", "Error", "Please provide a project name."⟩,
      ?_, rfl⟩, ?_, ?_⟩ <;>
    simp [handleAddProject, hlen]

/-- Witness for C1: a duplicate name in a one-project list. -/
theorem C1_duplicate_project_rejected_witness :
    (handleAddProject ⟨[⟨"1", "alpha"⟩], [], [], "alpha", "", "", "", "",
        none⟩ true true []).1.requests = [] :=
  (C1_duplicate_project_rejected
    ⟨[⟨"1", "alpha"⟩], [], [], "alpha", "", "", "", "", none⟩ true true []
    ⟨⟨"1", "alpha"⟩, by simp, rfl⟩).2.1

/-- C2: adding a project with an empty name fails client-side with an
error alert asking for a name, no request, and an unchanged state; for
every non-empty, non-duplicate name a POST to `/projects` is issued. -/
theorem C2_project_name_validation (s : AdminState) (postOk fetchOk : Bool)
    (server : List Project) :
    (s.projectName.length = 0 →
      (handleAddProject s postOk fetchOk server).1.alerts
          = [⟨"error", "Error", "Please provide a project name."⟩] ∧
      (handleAddProject s postOk fetchOk server).1.requests = [] ∧
      (handleAddProject s postOk fetchOk server).2 = s) ∧
    (s.projectName.length > 0 →
      (∀ p ∈ s.projects, p.projectName.toLower ≠ s.projectName.toLower) →
      ∃ rest, (handleAddProject s postOk fetchOk server).1.requests
          = ⟨.POST, baseURL ++ "/projects",
              .projectBody s.projectName s.stages⟩ :: rest) := by
  constructor
  · intro h0
    have hlen : ¬ s.projectName.length > 0 := by omega
    refine ⟨?_, ?_, ?_⟩ <;> simp [handleAddProject, hlen]
  · intro hlen hnodup
    have hfind : s.projects.find?
        (fun p => p.projectName.toLower == s.projectName.toLower) = none := by
      rw [List.find?_eq_none]
      intro p hp
      simpa using hnodup p hp
    cases postOk with
    | false =>
        exact ⟨[], by simp [handleAddProject, hlen, hfind]⟩
    | true =>
        exact ⟨(fetchProjects s fetchOk server).1.requests,
          by simp [handleAddProject, hlen, hfind]⟩

/-- Witness for C2: the initial state has an empty name; a state with
name `"p1"` and no projects posts. -/
theorem C2_project_name_validation_witness :
    (handleAddProject initialAdminState true true []).1.requests = [] ∧
    (∃ rest, (handleAddProject ⟨[], [], [], "p1", "", "", "", "", none⟩
        true true []).1.requests
      = ⟨.POST, baseURL ++ "/projects", .projectBody "p1" []⟩ :: rest) :=
  ⟨((C2_project_name_validation initialAdminState true true []).1 rfl).2.1,
   (C2_project_name_validation ⟨[], [], [], "p1", "", "", "", "", none⟩
      true true []).2 (by decide) (by simp)⟩

/-- C3 counterexample: a non-admin drag whose result has no destination
produces no Access Denied modal (and no effect at all): `onDragEnd`
returns on the missing destination before the admin check runs. -/
theorem C3_counterexample :
    (onDragEnd false 1 [] ⟨⟨0⟩, none⟩ true).1.alerts = [] ∧
    (onDragEnd false 1 [] ⟨⟨0⟩, none⟩ true).1 = noEffects ∧
    (onDragEnd false 1 [] ⟨⟨0⟩, none⟩ true).2 = [] :=
  ⟨rfl, rfl, rfl⟩

/-- C3 (amended): every non-admin `handleStatusChange` call, and every
non-admin `onDragEnd` call whose drag has a destination, shows an Access
Denied modal, issues no request and leaves the stages state unchanged;
with `isAdmin = true` the corresponding PUT is issued. -/
theorem C3_amended_authorization (projectId : Nat) (stages : List Stage)
    (stageId : Nat) (status : String) (ok : Bool) (src dest : Nat) :
    ((handleStatusChange false projectId stages stageId status ok).1.alerts
        = [⟨"warning", "Access Denied",
            "Only admins can change the status."⟩] ∧
     (handleStatusChange false projectId stages stageId status ok).1.requests
        = [] ∧
     (handleStatusChange false projectId stages stageId status ok).2
        = stages) ∧
    ((onDragEnd false projectId stages ⟨⟨src⟩, some ⟨dest⟩⟩ ok).1.alerts
        = [⟨"warning", "Access Denied",
            "Only admins can rearrange the stages."⟩] ∧
     (onDragEnd false projectId stages ⟨⟨src⟩, some ⟨dest⟩⟩ ok).1.requests
        = [] ∧
     (onDragEnd false projectId stages ⟨⟨src⟩, some ⟨dest⟩⟩ ok).2
        = stages) ∧
    (handleStatusChange true projectId stages stageId status ok).1.requests
        = [⟨.PUT, baseURL ++ "/projects/stage/" ++ toString projectId ++ "/"
            ++ toString stageId, .statusBody status⟩] ∧
    (onDragEnd true projectId stages ⟨⟨src⟩, some ⟨dest⟩⟩ ok).1.requests
        = [⟨.PUT, baseURL ++ "/reorder/" ++ toString projectId,
            .stagesBody (spliceReorder stages src dest)⟩] := by
  refine ⟨⟨rfl, rfl, rfl⟩, ⟨rfl, rfl, rfl⟩, rfl, ?_⟩
  cases ok <;> rfl

/-- `insertIdx` at an index within the list is take-cons-drop. -/
theorem insertIdx_eq_take_cons_drop {α : Type} (l : List α) (n : Nat)
    (a : α) (h : n ≤ l.length) :
    l.insertIdx n a = l.take n ++ a :: l.drop n := by
  induction n generalizing l with
  | zero => simp
  | succ n ih =>
      cases l with
      | nil => simp at h
      | cons x xs =>
          simp only [List.insertIdx_succ_cons, List.take_succ_cons,
            List.drop_succ_cons, List.cons_append]
          rw [ih xs (by simpa using h)]

/-- C4: an admin drag with a destination persists exactly the list
obtained by removing the element at `source.index` and re-inserting it at
`destination.index`; that list is a permutation of the original (same
length), and for `source.index = destination.index` it is the original
list.  A drag without destination does nothing: no effect, no request,
state untouched. -/
theorem C4_drag_reorder_correct (projectId : Nat) (stages : List Stage)
    (src dest : Nat) (ok : Bool) (h1 : src < stages.length)
    (h2 : dest < stages.length) :
    spliceReorder stages src dest
        = (stages.eraseIdx src).insertIdx dest (stages.get ⟨src, h1⟩) ∧
    (spliceReorder stages src dest).Perm stages ∧
    (spliceReorder stages src dest).length = stages.length ∧
    (src = dest → spliceReorder stages src dest = stages) ∧
    (onDragEnd true projectId stages ⟨⟨src⟩, some ⟨dest⟩⟩ ok).1.requests
        = [⟨.PUT, baseURL ++ "/reorder/" ++ toString projectId,
            .stagesBody (spliceReorder stages src dest)⟩] ∧
    (∀ res : DragResult, res.destination = none →
      onDragEnd true projectId stages res ok = (noEffects, stages)) := by
  have hget : stages.get? src = some (stages.get ⟨src, h1⟩) := by
    rw [List.get?_eq_getElem?, List.getElem?_eq_getElem h1]
    rfl
  have hsplice : spliceReorder stages src dest
      = (stages.eraseIdx src).take dest ++ stages.get ⟨src, h1⟩ ::
          (stages.eraseIdx src).drop dest := by
    unfold spliceReorder
    rw [hget]
  have hrlen : (stages.eraseIdx src).length = stages.length - 1 := by
    rw [List.length_eraseIdx]
    simp [h1]
  have hdle : dest ≤ (stages.eraseIdx src).length := by omega
  have hmid : stages.take src ++ stages.get ⟨src, h1⟩ ::
      stages.drop (src + 1) = stages := by
    rw [List.get_eq_getElem, List.getElem_cons_drop, List.take_append_drop]
  have hperm : (spliceReorder stages src dest).Perm stages := by
    rw [hsplice]
    have p1 : List.Perm
        ((stages.eraseIdx src).take dest ++ stages.get ⟨src, h1⟩ ::
          (stages.eraseIdx src).drop dest)
        (stages.get ⟨src, h1⟩ :: stages.eraseIdx src) := by
      have p := @List.perm_middle Stage (stages.get ⟨src, h1⟩)
        ((stages.eraseIdx src).take dest) ((stages.eraseIdx src).drop dest)
      rwa [List.take_append_drop] at p
    have p2 : List.Perm (stages.get ⟨src, h1⟩ :: stages.eraseIdx src)
        stages := by
      rw [List.eraseIdx_eq_take_drop_succ]
      have pm := (@List.perm_middle Stage (stages.get ⟨src, h1⟩)
        (stages.take src) (stages.drop (src + 1))).symm
      rwa [hmid] at pm
    exact p1.trans p2
  refine ⟨?_, hperm, hperm.length_eq, ?_, ?_, ?_⟩
  · rw [hsplice, insertIdx_eq_take_cons_drop _ _ _ hdle]
  · intro heq
    subst heq
    rw [hsplice, List.eraseIdx_eq_take_drop_succ]
    have hlt : (stages.take src).length = src := by
      rw [List.length_take]
      omega
    rw [List.take_append_of_le_length (le_of_eq hlt.symm)]
    rw [List.take_take, Nat.min_self]
    rw [List.drop_append_of_le_length (le_of_eq hlt.symm)]
    rw [List.drop_eq_nil_of_le (le_of_eq hlt), List.nil_append]
    exact hmid
  · cases ok <;> rfl
  · rintro ⟨s0, d0⟩ hres
    cases d0 with
    | none => rfl
    | some d => simp at hres

/-- Witness for C4: swapping the two stages of a concrete list. -/
theorem C4_drag_reorder_correct_witness :
    (spliceReorder [⟨1, "a", "ongoing", 0⟩, ⟨2, "b", "completed", 1⟩]
        0 1).Perm [⟨1, "a", "ongoing", 0⟩, ⟨2, "b", "completed", 1⟩] ∧
    (spliceReorder [⟨1, "a", "ongoing", 0⟩, ⟨2, "b", "completed", 1⟩]
        0 1).length = 2 :=
  ⟨(C4_drag_reorder_correct 9
      [⟨1, "a", "ongoing", 0⟩, ⟨2, "b", "completed", 1⟩] 0 1 true
      (by decide) (by decide)).2.1,
   (C4_drag_reorder_correct 9
      [⟨1, "a", "ongoing", 0⟩, ⟨2, "b", "completed", 1⟩] 0 1 true
      (by decide) (by decide)).2.2.1⟩

/-- C5 counterexample: a failed GET `/projects` in `fetchProjects` issues
a request yet surfaces no modal alert (console logging only), and a
failed PUT in the public view's `makeApiCall` (reached from
`handleStatusChange`) has no catch at all: the rejection is uncaught. -/
theorem C5_counterexample :
    (fetchProjects initialAdminState false []).1.requests ≠ [] ∧
    (fetchProjects initialAdminState false []).1.alerts = [] ∧
    (makeApiCall 1 "ongoing" 2 false).uncaught = true ∧
    (handleStatusChange true 1 [] 2 "ongoing" false).1.uncaught = true :=
  ⟨by simp [fetchProjects], rfl, rfl, rfl⟩

/-- C5 (amended): request failures are caught per-request everywhere
except the public view's status PUT (`makeApiCall`, reached from
`handleStatusChange`), which is uncaught; of the catching handlers, the
three add handlers and `persistOrder` surface the failure via a modal
error alert, while the fetch handlers, the delete handlers and the admin
status toggle only log to the console (no alert). -/
theorem C5_amended_error_handling (s : AdminState) (fetchOk : Bool)
    (pid stageIdStr cur status : String) (sid projectId cardId : Nat)
    (stages : List Stage) (servP : List Project) (servD : List Download)
    (servS : Option (List Stage)) :
    ((fetchProjects s false servP).1.alerts = [] ∧
     (fetchProjects s false servP).1.consoleErrors
        = ["Error fetching projects:"] ∧
     (fetchProjects s false servP).1.uncaught = false) ∧
    ((fetchDownloads s false servD).1.alerts = [] ∧
     (fetchDownloads s false servD).1.uncaught = false) ∧
    ((handleDeleteProject s pid false fetchOk servP).1.alerts = [] ∧
     (handleDeleteProject s pid false fetchOk servP).1.consoleErrors
        = ["Error deleting project:"] ∧
     (handleDeleteProject s pid false fetchOk servP).1.uncaught = false) ∧
    ((handleDeleteDownload s sid false fetchOk servD).1.alerts = [] ∧
     (handleDeleteDownload s sid false fetchOk servD).1.uncaught = false) ∧
    (s.selectedProject = some pid → pid ≠ "" →
      ((fetchStages s false servS).1.alerts = [] ∧
       (fetchStages s false servS).1.consoleErrors
          = ["Error fetching stages:"] ∧
       (fetchStages s false servS).1.uncaught = false) ∧
      ((handleChangeStageStatus s stageIdStr cur false fetchOk
          servS).1.alerts = [] ∧
       (handleChangeStageStatus s stageIdStr cur false fetchOk
          servS).1.requests ≠ [] ∧
       (handleChangeStageStatus s stageIdStr cur false fetchOk
          servS).1.uncaught = false) ∧
      ((handleDeleteStage s sid false fetchOk servS).1.alerts = [] ∧
       (handleDeleteStage s sid false fetchOk servS).1.uncaught = false)) ∧
    (s.projectName.length > 0 →
      (∀ p ∈ s.projects, p.projectName.toLower ≠ s.projectName.toLower) →
      (handleAddProject s false fetchOk servP).1.alerts
          = [⟨"error", "Error", "Error adding project. Please try again."⟩] ∧
      (handleAddProject s false fetchOk servP).1.uncaught = false) ∧
    (s.selectedProject = some pid → pid ≠ "" → s.stageName ≠ "" →
      (handleAddStage s false fetchOk servS).1.alerts
          = [⟨"error", "Error", "Error adding stage. Please try again."⟩]) ∧
    (s.downloadName ≠ "" → s.downloadDescription ≠ "" → s.downloadUrl ≠ "" →
      (handleAddDownload s false fetchOk servD).1.alerts
          = [⟨"error", "Error",
              "Error adding download. Please try again."⟩]) ∧
    ((persistOrder projectId stages false).alerts
        = [⟨"error", "Update Failed",
            "There was an error updating the stages."⟩] ∧
     (persistOrder projectId stages false).uncaught = false) ∧
    (makeApiCall projectId status cardId false).uncaught = true ∧
    (handleStatusChange true projectId stages cardId status
        false).1.uncaught = true := by
  refine ⟨⟨rfl, rfl, rfl⟩, ⟨rfl, rfl⟩, ⟨rfl, rfl, rfl⟩, ⟨rfl, rfl⟩,
    ?_, ?_, ?_, ?_, ⟨rfl, rfl⟩, rfl, rfl⟩
  · intro hsel hpid
    refine ⟨⟨?_, ?_, ?_⟩, ⟨?_, ?_, ?_⟩, ?_, ?_⟩ <;>
      simp [fetchStages, handleChangeStageStatus, handleDeleteStage,
        hsel, hpid]
  · intro hlen hnodup
    have hfind := findDuplicate_eq_none s hnodup
    constructor <;> simp [handleAddProject, hlen, hfind]
  · intro hsel hpid hname
    simp [handleAddStage, hsel, hpid, hname]
  · intro h1 h2 h3
    simp [handleAddDownload, h1, h2, h3]

/-- Witness for C5 (amended) at a concrete state with a selected project,
a fresh project name and filled download fields. -/
theorem C5_amended_error_handling_witness :
    (fetchStages ⟨[], [], [], "p", "s", "d", "de", "u",
        some "7"⟩ false none).1.alerts = [] ∧
    (handleChangeStageStatus ⟨[], [], [], "p", "s", "d", "de", "u",
        some "7"⟩ "3" "ongoing" false true none).1.alerts = [] ∧
    (handleAddProject ⟨[], [], [], "p", "s", "d", "de", "u",
        some "7"⟩ false true []).1.alerts
      = [⟨"error", "Error", "Error adding project. Please try again."⟩] :=
  ⟨(((C5_amended_error_handling ⟨[], [], [], "p", "s", "d", "de", "u",
        some "7"⟩ true "7" "3" "ongoing" "ongoing" 0 1 2 [] [] [] none
      ).2.2.2.2.1 rfl (by decide)).1).1,
   (((C5_amended_error_handling ⟨[], [], [], "p", "s", "d", "de", "u",
        some "7"⟩ true "7" "3" "ongoing" "ongoing" 0 1 2 [] [] [] none
      ).2.2.2.2.1 rfl (by decide)).2.1).1,
   ((C5_amended_error_handling ⟨[], [], [], "p", "s", "d", "de", "u",
        some "7"⟩ true "7" "3" "ongoing" "ongoing" 0 1 2 [] [] [] none
      ).2.2.2.2.2.1 (by decide) (by simp)).1⟩

/-- C6: every successful create or delete in the admin panel is exactly
one mutating request followed by a re-fetch of the affected list —
`/projects` for projects, the selected project's stages for stages,
`/downloads` for downloads — and the resulting list state is the
re-fetch's server response. -/
theorem C6_mutation_then_refetch (s : AdminState) (pid : String)
    (sid did : Nat) (servP : List Project) (servD : List Download)
    (servS : Option (List Stage)) :
    (s.projectName.length > 0 →
      (∀ p ∈ s.projects, p.projectName.toLower ≠ s.projectName.toLower) →
      (handleAddProject s true true servP).1.requests
          = [⟨.POST, baseURL ++ "/projects",
              .projectBody s.projectName s.stages⟩,
             ⟨.GET, baseURL ++ "/projects", .empty⟩] ∧
      (handleAddProject s true true servP).2.projects = servP) ∧
    ((handleDeleteProject s pid true true servP).1.requests
        = [⟨.DELETE, baseURL ++ "/projects/" ++ pid, .empty⟩,
           ⟨.GET, baseURL ++ "/projects", .empty⟩] ∧
     (handleDeleteProject s pid true true servP).2.projects = servP) ∧
    (s.selectedProject = some pid → pid ≠ "" → s.stageName ≠ "" →
      (handleAddStage s true true servS).1.requests
          = [⟨.POST, baseURL ++ "/projects/stage/" ++ pid,
              .stageNameBody s.stageName⟩,
             ⟨.GET, baseURL ++ "/projects/" ++ pid, .empty⟩] ∧
      (handleAddStage s true true servS).2.stages = servS.getD []) ∧
    (s.selectedProject = some pid → pid ≠ "" →
      (handleDeleteStage s sid true true servS).1.requests
          = [⟨.DELETE, baseURL ++ "/projects/stage/" ++ pid ++ "/"
                ++ toString sid, .empty⟩,
             ⟨.GET, baseURL ++ "/projects/" ++ pid, .empty⟩] ∧
      (handleDeleteStage s sid true true servS).2.stages = servS.getD []) ∧
    (s.downloadName ≠ "" → s.downloadDescription ≠ "" →
      s.downloadUrl ≠ "" →
      (handleAddDownload s true true servD).1.requests
          = [⟨.POST, baseURL ++ "/downloads",
              .downloadBody s.downloadName s.downloadDescription
                s.downloadUrl⟩,
             ⟨.GET, baseURL ++ "/downloads", .empty⟩] ∧
      (handleAddDownload s true true servD).2.downloads = servD) ∧
    ((handleDeleteDownload s did true true servD).1.requests
        = [⟨.DELETE, baseURL ++ "/downloads/" ++ toString did, .empty⟩,
           ⟨.GET, baseURL ++ "/downloads", .empty⟩] ∧
     (handleDeleteDownload s did true true servD).2.downloads = servD) := by
  refine ⟨?_, ?_, ?_, ?_, ?_, ?_⟩
  · intro hlen hnodup
    have hfind := findDuplicate_eq_none s hnodup
    constructor <;> simp [handleAddProject, fetchProjects, hlen, hfind]
  · constructor <;> simp [handleDeleteProject, fetchProjects]
  · intro hsel hpid hname
    constructor <;> simp [handleAddStage, fetchStages, hsel, hpid, hname]
  · intro hsel hpid
    constructor <;> simp [handleDeleteStage, fetchStages, hsel, hpid]
  · intro h1 h2 h3
    constructor <;> simp [handleAddDownload, fetchDownloads, h1, h2, h3]
  · constructor <;> simp [handleDeleteDownload, fetchDownloads]

/-- Witness for C6 at a concrete state. -/
theorem C6_mutation_then_refetch_witness :
    (handleAddStage ⟨[], [], [], "p", "design", "d", "de", "u",
        some "7"⟩ true true (some [⟨1, "design", "ongoing", 0⟩])).1.requests
      = [⟨.POST, baseURL ++ "/projects/stage/" ++ "7",
          .stageNameBody "design"⟩,
         ⟨.GET, baseURL ++ "/projects/" ++ "7", .empty⟩] :=
  ((C6_mutation_then_refetch ⟨[], [], [], "p", "design", "d", "de", "u",
      some "7"⟩ "7" 1 2 [] [] (some [⟨1, "design", "ongoing", 0⟩])
    ).2.2.1 rfl (by decide) (by decide)).1

theorem allowed_GET_projects (b : Body) :
    allowedRequest ⟨.GET, baseURL ++ "/projects", b⟩ :=
  Or.inl ⟨rfl, rfl⟩

theorem allowed_POST_projects (b : Body) :
    allowedRequest ⟨.POST, baseURL ++ "/projects", b⟩ :=
  Or.inr (Or.inl ⟨rfl, rfl⟩)

theorem allowed_GET_project (pid : String) (b : Body) :
    allowedRequest ⟨.GET, baseURL ++ "/projects/" ++ pid, b⟩ :=
  Or.inr (Or.inr (Or.inl ⟨pid, Or.inl rfl, rfl⟩))

theorem allowed_DELETE_project (pid : String) (b : Body) :
    allowedRequest ⟨.DELETE, baseURL ++ "/projects/" ++ pid, b⟩ :=
  Or.inr (Or.inr (Or.inl ⟨pid, Or.inr rfl, rfl⟩))

theorem allowed_POST_stage (pid : String) (b : Body) :
    allowedRequest ⟨.POST, baseURL ++ "/projects/stage/" ++ pid, b⟩ :=
  Or.inr (Or.inr (Or.inr (Or.inl ⟨pid, rfl, rfl⟩)))

theorem allowed_PUT_stage (pid sid : String) (b : Body) :
    allowedRequest
      ⟨.PUT, baseURL ++ "/projects/stage/" ++ pid ++ "/" ++ sid, b⟩ :=
  Or.inr (Or.inr (Or.inr (Or.inr (Or.inl ⟨pid, sid, Or.inl rfl, rfl⟩))))

theorem allowed_DELETE_stage (pid sid : String) (b : Body) :
    allowedRequest
      ⟨.DELETE, baseURL ++ "/projects/stage/" ++ pid ++ "/" ++ sid, b⟩ :=
  Or.inr (Or.inr (Or.inr (Or.inr (Or.inl ⟨pid, sid, Or.inr rfl, rfl⟩))))

theorem allowed_PUT_reorder (pid : String) (b : Body) :
    allowedRequest ⟨.PUT, baseURL ++ "/reorder/" ++ pid, b⟩ :=
  Or.inr (Or.inr (Or.inr (Or.inr (Or.inr (Or.inl ⟨pid, rfl, rfl⟩)))))

theorem allowed_GET_downloads (b : Body) :
    allowedRequest ⟨.GET, baseURL ++ "/downloads", b⟩ :=
  Or.inr (Or.inr (Or.inr (Or.inr (Or.inr (Or.inr (Or.inl ⟨rfl, rfl⟩))))))

theorem allowed_POST_downloads (b : Body) :
    allowedRequest ⟨.POST, baseURL ++ "/downloads", b⟩ :=
  Or.inr (Or.inr (Or.inr (Or.inr (Or.inr (Or.inr (Or.inr
    (Or.inl ⟨rfl, rfl⟩)))))))

theorem allowed_DELETE_download (did : String) (b : Body) :
    allowedRequest ⟨.DELETE, baseURL ++ "/downloads/" ++ did, b⟩ :=
  Or.inr (Or.inr (Or.inr (Or.inr (Or.inr (Or.inr (Or.inr
    (Or.inr ⟨did, rfl, rfl⟩)))))))

theorem fetchProjects_allowed (s : AdminState) (ok : Bool)
    (server : List Project) :
    ∀ r ∈ (fetchProjects s ok server).1.requests, allowedRequest r := by
  intro r hr
  simp [fetchProjects] at hr
  subst hr
  exact allowed_GET_projects _

theorem fetchDownloads_allowed (s : AdminState) (ok : Bool)
    (server : List Download) :
    ∀ r ∈ (fetchDownloads s ok server).1.requests, allowedRequest r := by
  intro r hr
  simp [fetchDownloads] at hr
  subst hr
  exact allowed_GET_downloads _

theorem fetchStages_allowed (s : AdminState) (ok : Bool)
    (server : Option (List Stage)) :
    ∀ r ∈ (fetchStages s ok server).1.requests, allowedRequest r := by
  obtain ⟨P, St, D, pn, sn, dn, dd, du, sel⟩ := s
  cases sel with
  | none =>
      intro r hr
      simp [fetchStages, noEffects] at hr
  | some pid =>
      intro r hr
      by_cases hpid : pid = ""
      · simp [fetchStages, hpid, noEffects] at hr
      · simp [fetchStages, hpid] at hr
        subst hr
        exact allowed_GET_project pid _

theorem handleAddProject_allowed (s : AdminState) (postOk fetchOk : Bool)
    (server : List Project) :
    ∀ r ∈ (handleAddProject s postOk fetchOk server).1.requests,
      allowedRequest r := by
  intro r hr
  by_cases hlen : s.projectName.length > 0
  · cases hfind : s.projects.find?
        (fun p => p.projectName.toLower == s.projectName.toLower) with
    | some p => simp [handleAddProject, hlen, hfind] at hr
    | none =>
        cases postOk with
        | true =>
            simp [handleAddProject, hlen, hfind, fetchProjects] at hr
            rcases hr with rfl | rfl
            · exact allowed_POST_projects _
            · exact allowed_GET_projects _
        | false =>
            simp [handleAddProject, hlen, hfind] at hr
            subst hr
            exact allowed_POST_projects _
  · simp [handleAddProject, hlen] at hr

theorem handleAddStage_allowed (s : AdminState) (postOk fetchOk : Bool)
    (server : Option (List Stage)) :
    ∀ r ∈ (handleAddStage s postOk fetchOk server).1.requests,
      allowedRequest r := by
  obtain ⟨P, St, D, pn, sn, dn, dd, du, sel⟩ := s
  cases sel with
  | none =>
      intro r hr
      simp [handleAddStage, noEffects] at hr
  | some pid =>
      intro r hr
      by_cases hpid : pid = ""
      · simp [handleAddStage, hpid, noEffects] at hr
      · by_cases hsn : sn = ""
        · simp [handleAddStage, hpid, hsn, noEffects] at hr
        · cases postOk with
          | true =>
              simp [handleAddStage, hpid, hsn, fetchStages] at hr
              rcases hr with rfl | rfl
              · exact allowed_POST_stage pid _
              · exact allowed_GET_project pid _
          | false =>
              simp [handleAddStage, hpid, hsn] at hr
              subst hr
              exact allowed_POST_stage pid _

theorem handleAddDownload_allowed (s : AdminState) (postOk fetchOk : Bool)
    (server : List Download) :
    ∀ r ∈ (handleAddDownload s postOk fetchOk server).1.requests,
      allowedRequest r := by
  intro r hr
  by_cases h1 : s.downloadName = ""
  · simp [handleAddDownload, h1, noEffects] at hr
  · by_cases h2 : s.downloadDescription = ""
    · simp [handleAddDownload, h1, h2, noEffects] at hr
    · by_cases h3 : s.downloadUrl = ""
      · simp [handleAddDownload, h1, h2, h3, noEffects] at hr
      · cases postOk with
        | true =>
            simp [handleAddDownload, h1, h2, h3, fetchDownloads] at hr
            rcases hr with rfl | rfl
            · exact allowed_POST_downloads _
            · exact allowed_GET_downloads _
        | false =>
            simp [handleAddDownload, h1, h2, h3] at hr
            subst hr
            exact allowed_POST_downloads _

theorem handleChangeStageStatus_allowed (s : AdminState)
    (stageId currentStatus : String) (putOk fetchOk : Bool)
    (server : Option (List Stage)) :
    ∀ r ∈ (handleChangeStageStatus s stageId currentStatus putOk fetchOk
        server).1.requests, allowedRequest r := by
  obtain ⟨P, St, D, pn, sn, dn, dd, du, sel⟩ := s
  cases sel with
  | none =>
      intro r hr
      simp [handleChangeStageStatus, noEffects] at hr
  | some pid =>
      intro r hr
      by_cases hpid : pid = ""
      · simp [handleChangeStageStatus, hpid, noEffects] at hr
      · cases putOk with
        | true =>
            simp [handleChangeStageStatus, hpid, fetchStages] at hr
            rcases hr with rfl | rfl
            · exact allowed_PUT_stage pid stageId _
            · exact allowed_GET_project pid _
        | false =>
            simp [handleChangeStageStatus, hpid] at hr
            subst hr
            exact allowed_PUT_stage pid stageId _

theorem handleDeleteProject_allowed (s : AdminState) (projectId : String)
    (delOk fetchOk : Bool) (server : List Project) :
    ∀ r ∈ (handleDeleteProject s projectId delOk fetchOk
        server).1.requests, allowedRequest r := by
  intro r hr
  cases delOk with
  | true =>
      simp [handleDeleteProject, fetchProjects] at hr
      rcases hr with rfl | rfl
      · exact allowed_DELETE_project projectId _
      · exact allowed_GET_projects _
  | false =>
      simp [handleDeleteProject] at hr
      subst hr
      exact allowed_DELETE_project projectId _

theorem handleDeleteStage_allowed (s : AdminState) (stageId : Nat)
    (delOk fetchOk : Bool) (server : Option (List Stage)) :
    ∀ r ∈ (handleDeleteStage s stageId delOk fetchOk server).1.requests,
      allowedRequest r := by
  obtain ⟨P, St, D, pn, sn, dn, dd, du, sel⟩ := s
  cases sel with
  | none =>
      intro r hr
      simp [handleDeleteStage, noEffects] at hr
  | some pid =>
      intro r hr
      by_cases hpid : pid = ""
      · simp [handleDeleteStage, hpid, noEffects] at hr
      · cases delOk with
        | true =>
            simp [handleDeleteStage, hpid, fetchStages] at hr
            rcases hr with rfl | rfl
            · exact allowed_DELETE_stage pid (toString stageId) _
            · exact allowed_GET_project pid _
        | false =>
            simp [handleDeleteStage, hpid] at hr
            subst hr
            exact allowed_DELETE_stage pid (toString stageId) _

theorem handleDeleteDownload_allowed (s : AdminState) (downloadId : Nat)
    (delOk fetchOk : Bool) (server : List Download) :
    ∀ r ∈ (handleDeleteDownload s downloadId delOk fetchOk
        server).1.requests, allowedRequest r := by
  intro r hr
  cases delOk with
  | true =>
      simp [handleDeleteDownload, fetchDownloads] at hr
      rcases hr with rfl | rfl
      · exact allowed_DELETE_download (toString downloadId) _
      · exact allowed_GET_downloads _
  | false =>
      simp [handleDeleteDownload] at hr
      subst hr
      exact allowed_DELETE_download (toString downloadId) _

theorem makeApiCall_allowed (projectId : Nat) (status : String)
    (cardId : Nat) (ok : Bool) :
    ∀ r ∈ (makeApiCall projectId status cardId ok).requests,
      allowedRequest r := by
  intro r hr
  simp [makeApiCall] at hr
  subst hr
  exact allowed_PUT_stage (toString projectId) (toString cardId) _

theorem handleStatusChange_allowed (isAdmin : Bool) (projectId : Nat)
    (stages : List Stage) (stageId : Nat) (status : String) (ok : Bool) :
    ∀ r ∈ (handleStatusChange isAdmin projectId stages stageId status
        ok).1.requests, allowedRequest r := by
  cases isAdmin with
  | false =>
      intro r hr
      simp [handleStatusChange] at hr
  | true =>
      intro r hr
      exact makeApiCall_allowed projectId status stageId ok r hr

theorem persistOrder_allowed (projectId : Nat) (orderedStages : List Stage)
    (ok : Bool) :
    ∀ r ∈ (persistOrder projectId orderedStages ok).requests,
      allowedRequest r := by
  intro r hr
  cases ok <;>
    · simp [persistOrder] at hr
      subst hr
      exact allowed_PUT_reorder (toString projectId) _

theorem onDragEnd_allowed (isAdmin : Bool) (projectId : Nat)
    (stages : List Stage) (result : DragResult) (ok : Bool) :
    ∀ r ∈ (onDragEnd isAdmin projectId stages result ok).1.requests,
      allowedRequest r := by
  obtain ⟨src, dst⟩ := result
  cases dst with
  | none =>
      intro r hr
      simp [onDragEnd, noEffects] at hr
  | some d =>
      cases isAdmin with
      | false =>
          intro r hr
          simp [onDragEnd] at hr
      | true =>
          intro r hr
          exact persistOrder_allowed projectId _ ok r hr

/-- C7: every HTTP request the program can issue targets the hard-coded
base URL `https://app-back-99ll.onrender.com` and has one of exactly the
endpoint shapes of `allowedRequest`: GET/POST `/projects`, GET/DELETE
`/projects/:id`, POST `/projects/stage/:projectId`, PUT/DELETE
`/projects/stage/:projectId/:stageId`, PUT `/reorder/:projectId`,
GET/POST `/downloads`, DELETE `/downloads/:id`. -/
theorem C7_requests_shape :
    (∀ s ok server, ∀ r ∈ (fetchProjects s ok server).1.requests,
      allowedRequest r) ∧
    (∀ s ok server, ∀ r ∈ (fetchDownloads s ok server).1.requests,
      allowedRequest r) ∧
    (∀ s ok server, ∀ r ∈ (fetchStages s ok server).1.requests,
      allowedRequest r) ∧
    (∀ s postOk fetchOk server,
      ∀ r ∈ (handleAddProject s postOk fetchOk server).1.requests,
      allowedRequest r) ∧
    (∀ s postOk fetchOk server,
      ∀ r ∈ (handleAddStage s postOk fetchOk server).1.requests,
      allowedRequest r) ∧
    (∀ s postOk fetchOk server,
      ∀ r ∈ (handleAddDownload s postOk fetchOk server).1.requests,
      allowedRequest r) ∧
    (∀ s stageId currentStatus putOk fetchOk server,
      ∀ r ∈ (handleChangeStageStatus s stageId currentStatus putOk fetchOk
        server).1.requests, allowedRequest r) ∧
    (∀ s projectId delOk fetchOk server,
      ∀ r ∈ (handleDeleteProject s projectId delOk fetchOk
        server).1.requests, allowedRequest r) ∧
    (∀ s stageId delOk fetchOk server,
      ∀ r ∈ (handleDeleteStage s stageId delOk fetchOk server).1.requests,
      allowedRequest r) ∧
    (∀ s downloadId delOk fetchOk server,
      ∀ r ∈ (handleDeleteDownload s downloadId delOk fetchOk
        server).1.requests, allowedRequest r) ∧
    (∀ projectId status cardId ok,
      ∀ r ∈ (makeApiCall projectId status cardId ok).requests,
      allowedRequest r) ∧
    (∀ isAdmin projectId stages stageId status ok,
      ∀ r ∈ (handleStatusChange isAdmin projectId stages stageId status
        ok).1.requests, allowedRequest r) ∧
    (∀ projectId orderedStages ok,
      ∀ r ∈ (persistOrder projectId orderedStages ok).requests,
      allowedRequest r) ∧
    (∀ isAdmin projectId stages result ok,
      ∀ r ∈ (onDragEnd isAdmin projectId stages result ok).1.requests,
      allowedRequest r) :=
  ⟨fetchProjects_allowed, fetchDownloads_allowed, fetchStages_allowed,
   handleAddProject_allowed, handleAddStage_allowed,
   handleAddDownload_allowed, handleChangeStageStatus_allowed,
   handleDeleteProject_allowed, handleDeleteStage_allowed,
   handleDeleteDownload_allowed, makeApiCall_allowed,
   handleStatusChange_allowed, persistOrder_allowed, onDragEnd_allowed⟩

/-- Witness for C7: the GET `/projects` request of `fetchProjects`. -/
theorem C7_requests_shape_witness :
    allowedRequest ⟨.GET, baseURL ++ "/projects", .empty⟩ :=
  C7_requests_shape.1 initialAdminState true []
    ⟨.GET, baseURL ++ "/projects", .empty⟩ (by simp [fetchProjects])

/-- C8 counterexample: `DownloadPage`'s mount effect writes the current
page URL to `localStorage` under the key `"lastPage"` — application state
persisted in a client-side browser store outside React component state. -/
theorem C8_counterexample :
    (downloadPageMountEffect "https://x.example/p/1").localStorageWrites
      = [("lastPage", "https://x.example/p/1")] ∧
    (downloadPageMountEffect "https://x.example/p/1").localStorageWrites
      ≠ [] := by
  constructor
  · rfl
  · simp [downloadPageMountEffect]

/-- C8 (amended): no event handler of either component writes to a
client-side store — every handler's `localStorage` write list is empty —
with the single exception of `DownloadPage`'s mount effect, which stores
the current URL in `localStorage` under `"lastPage"`. -/
theorem C8_amended_no_client_store (s : AdminState)
    (postOk fetchOk delOk ok isAdmin : Bool)
    (pid stageIdStr cur status href : String)
    (sid did projectId cardId : Nat) (stages : List Stage)
    (servP : List Project) (servD : List Download)
    (servS : Option (List Stage)) (result : DragResult) :
    (fetchProjects s fetchOk servP).1.localStorageWrites = [] ∧
    (fetchDownloads s fetchOk servD).1.localStorageWrites = [] ∧
    (fetchStages s fetchOk servS).1.localStorageWrites = [] ∧
    (handleAddProject s postOk fetchOk servP).1.localStorageWrites = [] ∧
    (handleAddStage s postOk fetchOk servS).1.localStorageWrites = [] ∧
    (handleAddDownload s postOk fetchOk servD).1.localStorageWrites = [] ∧
    (handleChangeStageStatus s stageIdStr cur postOk fetchOk
        servS).1.localStorageWrites = [] ∧
    (handleDeleteProject s pid delOk fetchOk
        servP).1.localStorageWrites = [] ∧
    (handleDeleteStage s sid delOk fetchOk
        servS).1.localStorageWrites = [] ∧
    (handleDeleteDownload s did delOk fetchOk
        servD).1.localStorageWrites = [] ∧
    (handleStatusChange isAdmin projectId stages cardId status
        ok).1.localStorageWrites = [] ∧
    (onDragEnd isAdmin projectId stages result
        ok).1.localStorageWrites = [] ∧
    (persistOrder projectId stages ok).localStorageWrites = [] ∧
    (makeApiCall projectId status cardId ok).localStorageWrites = [] ∧
    (downloadPageMountEffect href).localStorageWrites
        = [("lastPage", href)] := by
  refine ⟨rfl, rfl, ?_, ?_, ?_, ?_, ?_, ?_, ?_, ?_, ?_, ?_, ?_, rfl, rfl⟩
  · unfold fetchStages
    repeat' split
    all_goals rfl
  · unfold handleAddProject
    repeat' split
    all_goals rfl
  · unfold handleAddStage
    repeat' split
    all_goals rfl
  · unfold handleAddDownload
    repeat' split
    all_goals rfl
  · unfold handleChangeStageStatus
    repeat' split
    all_goals rfl
  · unfold handleDeleteProject
    repeat' split
    all_goals rfl
  · unfold handleDeleteStage
    repeat' split
    all_goals rfl
  · unfold handleDeleteDownload
    repeat' split
    all_goals rfl
  · unfold handleStatusChange
    repeat' split
    all_goals rfl
  · unfold onDragEnd persistOrder
    repeat' split
    all_goals rfl
  · unfold persistOrder
    repeat' split
    all_goals rfl

end AppFront
